import Mathlib

/-
Verification development for the zkevm-node proof aggregation coordinator
(aggregator/aggregator.go) and the Ethereum tx manager monitored transaction
(ethtxmanager/monitoredtx.go).

The Go source is shallowly embedded: time instants are naturals, machine
integers are naturals with explicit reduction mod 2^64 where wraparound can
occur, fallible external calls (store queries, prover RPCs, L1 submissions)
are parameters of type Except GoErr drawn from an environment record, and
each operation is a pure function threading the gate state and the proof
store explicitly.  The Go err-variable / defer discipline of the source is
translated path by path.
-/

deriving instance DecidableEq for Except

namespace ZkAgg

/-- Errors surfaced by external collaborators.  ErrNotFound and
ErrStateNotSynchronized are the two distinguished sentinel errors the
aggregator source tests for; canceled stands for a context cancellation
error; other stands for any remaining error value. -/
inductive GoErr where
  | notFound
  | stateNotSynchronized
  | canceled
  | other
deriving Repr, DecidableEq

/-- Outcome of one aggregator operation returning the Go pair (bool, error).
ok b is (b, nil); errored e is (false, e); panicked marks a nil-pointer
dereference; diverged marks a wait loop that never exits. -/
inductive OpResult where
  | ok : Bool → OpResult
  | errored : GoErr → OpResult
  | panicked : OpResult
  | diverged : OpResult
deriving Repr, DecidableEq

/-- Gate state of the aggregator: the verifyingProof flag and the
TimeSendFinalProof deadline, from the Aggregator struct fields guarded by
TimeSendFinalProofMutex. -/
structure GateState where
  verifyingProof : Bool
  timeSendFinalProof : Nat
deriving Repr, DecidableEq

/-- canVerifyProof (aggregator.go lines 753-764): under the mutex, if the
deadline is strictly before now (time.Time.Before), and no proof is being
verified, set verifyingProof and return true; otherwise return false leaving
the state unchanged. -/
def canVerifyProof (now : Nat) (g : GateState) : Bool × GateState :=
  if g.timeSendFinalProof < now then
    if g.verifyingProof then
      (false, g)
    else
      (true, { g with verifyingProof := true })
  else
    (false, g)

/-- enableProofVerification (aggregator.go lines 766-770): clear the
verifyingProof flag; the deadline is untouched. -/
def enableProofVerification (g : GateState) : GateState :=
  { g with verifyingProof := false }

/-- resetVerifyProofTime (aggregator.go lines 772-778): clear verifyingProof
and set the deadline to now plus cfg.VerifyProofInterval. -/
def resetVerifyProofTime (now interval : Nat) : GateState :=
  { verifyingProof := false, timeSendFinalProof := now + interval }

/-- Gate operations that do not move the deadline: a canVerifyProof call at
some instant, or an enableProofVerification call. -/
inductive GateOp where
  | canVerify : Nat → GateOp
  | enable : GateOp
deriving Repr, DecidableEq

/-- State effect of one gate operation. -/
def gateStep (g : GateState) (op : GateOp) : GateState :=
  match op with
  | .canVerify now => (canVerifyProof now g).2
  | .enable => enableProofVerification g

theorem gateStep_preserves_deadline (g : GateState) (op : GateOp) :
    (gateStep g op).timeSendFinalProof = g.timeSendFinalProof := by
  cases op with
  | canVerify now =>
      simp only [gateStep, canVerifyProof]
      split
      · split <;> rfl
      · rfl
  | enable => rfl

theorem gateSteps_preserve_deadline (ops : List GateOp) (g : GateState) :
    (ops.foldl gateStep g).timeSendFinalProof = g.timeSendFinalProof := by
  induction ops generalizing g with
  | nil => rfl
  | cons op ops ih => rw [List.foldl_cons, ih, gateStep_preserves_deadline]

/-- C4 (counterexample): at the boundary instant now = time_send_final_proof
with verifying_proof false, the claim predicts canVerifyProof returns true
and sets the flag; the code compares with the strict time.Time.Before and
returns false, leaving the gate unchanged. -/
theorem canVerifyProof_boundary_counterexample :
    (5 : Nat) ≥ (GateState.mk false 5).timeSendFinalProof ∧
    (GateState.mk false 5).verifyingProof = false ∧
    canVerifyProof 5 (GateState.mk false 5) = (false, GateState.mk false 5) := by
  refine ⟨by decide, rfl, ?_⟩
  simp [canVerifyProof]

/-- C4 (amended): canVerifyProof returns true and atomically sets
verifying_proof iff the current time is strictly past time_send_final_proof
and verifying_proof is false; in every other case (including the boundary
instant now = time_send_final_proof) it returns false and leaves the gate
state unchanged. -/
theorem canVerifyProof_spec (now : Nat) (g : GateState) :
    canVerifyProof now g =
      if g.timeSendFinalProof < now ∧ g.verifyingProof = false then
        (true, { g with verifyingProof := true })
      else
        (false, g) := by
  simp only [canVerifyProof]
  by_cases h1 : g.timeSendFinalProof < now
  · by_cases h2 : g.verifyingProof
    · simp [h1, h2]
    · simp [h1, h2]
  · simp [h1]

/-- Batch row (state.Batch) as read by the aggregator: number, roots, hash,
timestamp (unix seconds), coinbase and payload. -/
structure Batch where
  batchNumber : Nat
  stateRoot : String
  localExitRoot : String
  accInputHash : String
  globalExitRoot : String
  timestamp : Nat
  coinbase : String
  batchL2Data : List Nat
deriving Repr, DecidableEq

/-- Proof row (state.Proof): covered batch range, optional prover-assigned
proof id, recursive proof payload, serialized prover input, producing prover
id and the generating lock flag. -/
structure Proof where
  batchNumber : Nat
  batchNumberFinal : Nat
  proofID : Option String
  proof : String
  inputProver : String
  prover : Option String
  generating : Bool
deriving Repr, DecidableEq

/-- Final proof result (pb.FinalProof) restricted to the public fields the
aggregator inspects and rewrites. -/
structure FinalProof where
  newStateRoot : String
  newLocalExitRoot : String
deriving Repr, DecidableEq

/-- Mock prover sentinel state root (aggregator.go line 25). -/
def mockedStateRoot : String :=
  "0x090bcaf734c4f06c93954a827b45a6e8c67b8e0fd1e0a35a1c5982d6961828f9"

/-- Mock prover sentinel local exit root (aggregator.go line 26). -/
def mockedLocalExitRoot : String :=
  "0x17c04c3760510b48c6012742c540a81aba4bca2f78b9d14bfd2f123e2e53ea3e"

/-- Modelled from the spec: the store mutation primitive
UpdateGeneratedProof, whose implementation is not under src/.  Spec section
3 invariant 2 gives at most one row per covered range, so the update
replaces every row sharing the range key of the given proof; updating a
missing key changes nothing. -/
def updateGeneratedProof (p : Proof) (s : List Proof) : List Proof :=
  s.map fun q =>
    if q.batchNumber = p.batchNumber ∧ q.batchNumberFinal = p.batchNumberFinal then p else q

/-- Modelled from the spec: the store mutation primitive
DeleteGeneratedProofs(from, to), whose implementation is not under src/.
Spec section 3 invariant 5: deletes all proofs with batch_number ≥ from and
batch_number_final ≤ to. -/
def deleteGeneratedProofs (a b : Nat) (s : List Proof) : List Proof :=
  s.filter fun q => ¬(a ≤ q.batchNumber ∧ q.batchNumberFinal ≤ b)

/-- Modelled from the spec: the store mutation primitive AddGeneratedProof,
whose implementation is not under src/; inserts the row. -/
def addGeneratedProof (p : Proof) (s : List Proof) : List Proof :=
  s ++ [p]

/-- C7: from the moment resetVerifyProofTime completes at instant t0 until at
least VerifyProofInterval has elapsed (now ≤ t0 + interval), every call to
canVerifyProof returns false, regardless of interleaved canVerifyProof and
enableProofVerification calls, which do not move the deadline. -/
theorem canVerifyProof_false_after_reset (t0 interval : Nat) (ops : List GateOp)
    (now : Nat) (h : now ≤ t0 + interval) :
    (canVerifyProof now (ops.foldl gateStep (resetVerifyProofTime t0 interval))).1 = false := by
  have hd : (ops.foldl gateStep (resetVerifyProofTime t0 interval)).timeSendFinalProof
      = t0 + interval := by
    rw [gateSteps_preserve_deadline]; rfl
  simp only [canVerifyProof, hd]
  have : ¬(t0 + interval < now) := Nat.not_lt.mpr h
  simp [this]

/-- C7 (witness): concrete run at t0 = 0, interval = 10, with an interleaved
enable and an in-window canVerifyProof, queried at now = 10. -/
theorem canVerifyProof_false_after_reset_witness :
    (canVerifyProof 10 ([GateOp.enable, GateOp.canVerify 3].foldl gateStep
      (resetVerifyProofTime 0 10))).1 = false :=
  canVerifyProof_false_after_reset 0 10 [GateOp.enable, GateOp.canVerify 3] 10 (by decide)

/-- Environment of one tryBuildFinalProof call: the current instant, whether
the isSynced wait loop eventually observes a synced state, and the result of
each fallible external call made on this code path, in program order. -/
structure TbfpEnv where
  now : Nat
  syncedEventually : Bool
  getLastVerifiedBatch : Except GoErr Batch
  getProofReadyToVerify : Except GoErr Proof
  updLockReady : Except GoErr Unit
  updUnlockReady : Except GoErr Unit
  checkProofContainsCompleteSequences : Except GoErr Bool
  getPublicAddress : Except GoErr String
  finalProofID : Except GoErr String
  waitFinalProof : Except GoErr (Option FinalProof)
  getFinalBatch : Except GoErr Batch
  ctxDoneAtSend : Bool
deriving Repr, DecidableEq

/-- Resolution of GetLastVerifiedBatch in tryBuildFinalProof (lines 332-339):
a non-ErrNotFound error aborts; ErrNotFound leaves the batch nil so the last
verified number stays 0. -/
def lastVerifiedNum (r : Except GoErr Batch) : Except GoErr Nat :=
  match r with
  | .ok b => .ok b.batchNumber
  | .error .notFound => .ok 0
  | .error e => .error e

/-- Result of buildFinalProof: the final proof and the in-memory proof value
(whose ProofID field the function assigns through the pointer), an error, or
the panic on the sentinel check when the prover hands back a nil final proof
with a nil error. -/
inductive BfpResult where
  | ok : FinalProof → Proof → BfpResult
  | errored : GoErr → BfpResult
  | panicked : BfpResult
deriving Repr, DecidableEq

/-- buildFinalProof (aggregator.go lines 263-304): fetch the aggregator
public address, request the final proof id, record it on the proof, wait for
the final proof, and if both public roots equal the mock prover sentinels
replace them with the roots read from the final batch row.  A nil final
proof with nil error would be dereferenced by the sentinel check on line
290, hence the panicked case. -/
def buildFinalProof (env : TbfpEnv) (proof : Proof) : BfpResult :=
  match env.getPublicAddress with
  | .error _ => .errored .other
  | .ok _pubAddr =>
  match env.finalProofID with
  | .error _ => .errored .other
  | .ok fpid =>
  match env.waitFinalProof with
  | .error _ => .errored .other
  | .ok none => .panicked
  | .ok (some finalProof) =>
    if finalProof.newStateRoot = mockedStateRoot ∧
        finalProof.newLocalExitRoot = mockedLocalExitRoot then
      match env.getFinalBatch with
      | .error _ => .errored .other
      | .ok finalBatch =>
        .ok { newStateRoot := finalBatch.stateRoot
              newLocalExitRoot := finalBatch.localExitRoot }
          { proof with proofID := some fpid }
    else
      .ok finalProof { proof with proofID := some fpid }

/-- validateEligibleFinalProof (aggregator.go lines 407-424): the proof is
eligible iff its batch number is the successor of the last verified batch
number and the store complete-sequences check returns true; a failing check
call surfaces as an error. -/
def validateEligibleFinalProof (env : TbfpEnv) (proof : Proof)
    (lastVerifiedBatchNum : Nat) : Except GoErr Bool :=
  if proof.batchNumber ≠ lastVerifiedBatchNum + 1 then .ok false
  else
    match env.checkProofContainsCompleteSequences with
    | .error e => .error e
    | .ok bComplete => .ok bComplete

/-- getAndLockProofReadyToVerify (aggregator.go lines 426-444): under the
StateDBMutex, query the proof ready to verify, stamp generating on it and
persist the stamp; any error propagates with the store unchanged. -/
def getAndLockProofReadyToVerify (env : TbfpEnv) (s : List Proof) :
    Except GoErr (Proof × List Proof) :=
  match env.getProofReadyToVerify with
  | .error e => .error e
  | .ok proofToVerify =>
    let locked := { proofToVerify with generating := true }
    match env.updLockReady with
    | .error e => .error e
    | .ok _ => .ok (locked, updateGeneratedProof locked s)

/-- Store effect of the deferred unlock in tryBuildFinalProof (lines
355-364), armed only when the proof was locked here: restore generating to
false; a failing update is only logged. -/
def tbfpCleanup (env : TbfpEnv) (s : List Proof) (proof : Proof)
    (lockedHere : Bool) : List Proof :=
  if lockedHere then
    match env.updUnlockReady with
    | .error _ => s
    | .ok _ => updateGeneratedProof { proof with generating := false } s
  else s

/-- Tail of tryBuildFinalProof from the buildFinalProof call on (lines
379-404): on a build error the tracked err variable is set, so the deferred
unlock (when armed) and the deferred enableProofVerification both run; on
success the message is sent unless the context is done, and that
cancellation return does not assign the tracked err variable, so no deferred
cleanup runs. -/
def tbfpFinish (env : TbfpEnv) (g : GateState) (s : List Proof) (proof : Proof)
    (lockedHere : Bool) : OpResult × GateState × List Proof :=
  match buildFinalProof env proof with
  | .errored e =>
      (.errored e, enableProofVerification g, tbfpCleanup env s proof lockedHere)
  | .panicked => (.panicked, g, s)
  | .ok _finalProof proofWithID =>
      if env.ctxDoneAtSend then
        (.errored .canceled, g, s)
      else
        let _msg := proofWithID
        (.ok true, g, s)

/-- tryBuildFinalProof (aggregator.go lines 310-405): gate check, sync
barrier, last verified batch lookup, then either lock a dormant ready proof
(nil argument) or validate the provided proof, and finish by building and
dispatching the final proof.  The deferred enableProofVerification fires
exactly on the returns that leave the tracked err variable non-nil, which
includes the swallowed ErrNotFound of the ready-proof lookup. -/
def tryBuildFinalProof (env : TbfpEnv) (g : GateState) (s : List Proof)
    (proofArg : Option Proof) : OpResult × GateState × List Proof :=
  match canVerifyProof env.now g with
  | (false, g1) => (.ok false, g1, s)
  | (true, g1) =>
    if env.syncedEventually = false then (.diverged, g1, s)
    else
      match lastVerifiedNum env.getLastVerifiedBatch with
      | .error e => (.errored e, enableProofVerification g1, s)
      | .ok lastVerifiedBatchNum =>
        match proofArg with
        | none =>
          match getAndLockProofReadyToVerify env s with
          | .error .notFound => (.ok false, enableProofVerification g1, s)
          | .error e => (.errored e, enableProofVerification g1, s)
          | .ok (proof, s1) => tbfpFinish env g1 s1 proof true
        | some proof =>
          match validateEligibleFinalProof env proof lastVerifiedBatchNum with
          | .error e => (.errored e, enableProofVerification g1, s)
          | .ok false => (.ok false, g1, s)
          | .ok true => tbfpFinish env g1 s proof false

/-- C8: whenever the prover returns a final proof, its public new state root
and new local exit root are both overwritten with the values read from the
final batch row exactly when both equal the mock prover sentinel constants;
if only one or neither matches, neither field is modified. -/
theorem buildFinalProof_sentinel_spec (env : TbfpEnv) (proof : Proof)
    (pubAddr fpid : String) (fp : FinalProof) (fb : Batch)
    (hpub : env.getPublicAddress = .ok pubAddr)
    (hid : env.finalProofID = .ok fpid)
    (hwait : env.waitFinalProof = .ok (some fp))
    (hfb : env.getFinalBatch = .ok fb) :
    buildFinalProof env proof =
      .ok (if fp.newStateRoot = mockedStateRoot ∧
              fp.newLocalExitRoot = mockedLocalExitRoot then
             { newStateRoot := fb.stateRoot, newLocalExitRoot := fb.localExitRoot }
           else fp)
        { proof with proofID := some fpid } := by
  simp only [buildFinalProof, hpub, hid, hwait]
  split
  · simp [hfb]
  · rfl

/-- Batch fixture for concrete runs. -/
def batchW : Batch :=
  { batchNumber := 10, stateRoot := "sr10", localExitRoot := "ler10"
    accInputHash := "aih", globalExitRoot := "ger", timestamp := 7
    coinbase := "cb", batchL2Data := [] }

/-- Final proof fixture with only the state root matching the sentinel. -/
def fpHalfSentinel : FinalProof :=
  { newStateRoot := mockedStateRoot, newLocalExitRoot := "0xdead" }

/-- Environment fixture for the C8 witness. -/
def tbfpEnvC8 : TbfpEnv :=
  { now := 1, syncedEventually := true
    getLastVerifiedBatch := .ok batchW
    getProofReadyToVerify := .error .notFound
    updLockReady := .ok (), updUnlockReady := .ok ()
    checkProofContainsCompleteSequences := .ok true
    getPublicAddress := .ok "addr", finalProofID := .ok "fid"
    waitFinalProof := .ok (some fpHalfSentinel)
    getFinalBatch := .ok batchW
    ctxDoneAtSend := false }

/-- Proof row fixture covering batch 11 only. -/
def proofW : Proof :=
  { batchNumber := 11, batchNumberFinal := 11, proofID := none
    proof := "pf", inputProver := "ip", prover := some "pv", generating := false }

/-- C8 (witness): with only the state root equal to its sentinel, the
returned roots are exactly the prover's, unmodified. -/
theorem buildFinalProof_sentinel_spec_witness :
    buildFinalProof tbfpEnvC8 proofW =
      .ok fpHalfSentinel { proofW with proofID := some "fid" } := by
  have h := buildFinalProof_sentinel_spec tbfpEnvC8 proofW "addr" "fid"
    fpHalfSentinel batchW rfl rfl rfl rfl
  rw [h]
  have hne : ¬(fpHalfSentinel.newStateRoot = mockedStateRoot ∧
      fpHalfSentinel.newLocalExitRoot = mockedLocalExitRoot) := by decide
  rw [if_neg hne]

/-- C3: with the gate open, the sync barrier passed and the complete
sequences check answering without error, a provided proof is treated as
eligible if and only if its batch number is last verified plus one and the
check holds -- both directions, for every input; and whenever it is
ineligible, tryBuildFinalProof returns (false, nil) with the store untouched
and the gate verifyingProof flag still true at that return. -/
theorem tryBuildFinalProof_ineligible_spec (env : TbfpEnv) (g : GateState)
    (s : List Proof) (p : Proof) (lv : Nat) (c : Bool)
    (hopen : g.timeSendFinalProof < env.now)
    (hver : g.verifyingProof = false)
    (hsync : env.syncedEventually = true)
    (hlv : lastVerifiedNum env.getLastVerifiedBatch = .ok lv)
    (hc : env.checkProofContainsCompleteSequences = .ok c) :
    (validateEligibleFinalProof env p lv = .ok true ↔
      (p.batchNumber = lv + 1 ∧ c = true)) ∧
    (¬(p.batchNumber = lv + 1 ∧ c = true) →
      tryBuildFinalProof env g s (some p) =
        (.ok false, { g with verifyingProof := true }, s)) := by
  have hvalf : ¬(p.batchNumber = lv + 1 ∧ c = true) →
      validateEligibleFinalProof env p lv = .ok false := by
    intro hinel
    by_cases hbn : p.batchNumber = lv + 1
    · have hcf : c = false := by
        cases c
        · rfl
        · exact absurd ⟨hbn, rfl⟩ hinel
      simp [validateEligibleFinalProof, hbn, hc, hcf]
    · simp [validateEligibleFinalProof, hbn]
  constructor
  · by_cases hbn : p.batchNumber = lv + 1
    · have hvalc : validateEligibleFinalProof env p lv = .ok c := by
        simp [validateEligibleFinalProof, hbn, hc]
      rw [hvalc]
      constructor
      · intro h
        injection h with hct
        exact ⟨hbn, hct⟩
      · intro h
        rw [h.2]
    · rw [hvalf (fun h => absurd h.1 hbn)]
      constructor
      · intro h
        injection h with hft
        exact Bool.noConfusion hft
      · intro h
        exact absurd h.1 hbn
  · intro hinel
    simp [tryBuildFinalProof, canVerifyProof, hopen, hver, hsync, hlv, hvalf hinel]

/-- Environment fixture for the C3 witness: last verified is 10 and the
complete-sequences check holds, but the proof covers batch 12, one past the
required batch 11. -/
def tbfpEnvC3 : TbfpEnv :=
  { now := 9, syncedEventually := true
    getLastVerifiedBatch := .ok batchW
    getProofReadyToVerify := .error .other
    updLockReady := .ok (), updUnlockReady := .ok ()
    checkProofContainsCompleteSequences := .ok true
    getPublicAddress := .ok "addr", finalProofID := .ok "fid"
    waitFinalProof := .ok none
    getFinalBatch := .ok batchW
    ctxDoneAtSend := false }

/-- Proof fixture covering batch 12 only. -/
def proofW12 : Proof :=
  { batchNumber := 12, batchNumberFinal := 12, proofID := none
    proof := "pf", inputProver := "ip", prover := some "pv", generating := true }

/-- C3 (witness): concrete ineligible run, gate open at instant 9. -/
theorem tryBuildFinalProof_ineligible_spec_witness :
    (validateEligibleFinalProof tbfpEnvC3 proofW12 10 = .ok true ↔
      (proofW12.batchNumber = 10 + 1 ∧ true = true)) ∧
    tryBuildFinalProof tbfpEnvC3 (GateState.mk false 3) [proofW12] (some proofW12) =
      (.ok false, GateState.mk true 3, [proofW12]) := by
  have h := tryBuildFinalProof_ineligible_spec tbfpEnvC3 (GateState.mk false 3)
    [proofW12] proofW12 10 true (by decide) rfl rfl rfl rfl
  exact ⟨h.1, h.2 (by decide)⟩

/-- C9: with the gate open and the sync barrier passed, when no proof is
provided and the store reports no proof ready to verify (ErrNotFound), the
function returns (false, nil) with the store untouched and, because the
swallowed ErrNotFound is still held by the tracked err variable when the
deferred cleanup runs, the gate verifyingProof flag is false again at that
return. -/
theorem tryBuildFinalProof_notFound_spec (env : TbfpEnv) (g : GateState)
    (s : List Proof) (lv : Nat)
    (hopen : g.timeSendFinalProof < env.now)
    (hver : g.verifyingProof = false)
    (hsync : env.syncedEventually = true)
    (hlv : lastVerifiedNum env.getLastVerifiedBatch = .ok lv)
    (hnf : env.getProofReadyToVerify = .error .notFound) :
    tryBuildFinalProof env g s none =
      (.ok false, { g with verifyingProof := false }, s) := by
  simp [tryBuildFinalProof, canVerifyProof, hopen, hver, hsync, hlv,
    getAndLockProofReadyToVerify, hnf, enableProofVerification]

/-- Environment fixture for the C9 witness. -/
def tbfpEnvC9 : TbfpEnv :=
  { now := 9, syncedEventually := true
    getLastVerifiedBatch := .ok batchW
    getProofReadyToVerify := .error .notFound
    updLockReady := .ok (), updUnlockReady := .ok ()
    checkProofContainsCompleteSequences := .ok true
    getPublicAddress := .ok "addr", finalProofID := .ok "fid"
    waitFinalProof := .ok none
    getFinalBatch := .ok batchW
    ctxDoneAtSend := false }

/-- C9 (witness): concrete not-found run, gate open at instant 9; the gate is
released and the store untouched. -/
theorem tryBuildFinalProof_notFound_spec_witness :
    tryBuildFinalProof tbfpEnvC9 (GateState.mk false 3) [proofW] none =
      (.ok false, GateState.mk false 3, [proofW]) :=
  tryBuildFinalProof_notFound_spec tbfpEnvC9 (GateState.mk false 3) [proofW] 10
    (by decide) rfl rfl rfl rfl

/-- Observable actions of one final-proof dispatcher iteration, in the order
the code performs them. -/
inductive Event where
  | getBatch : Nat → Event
  | verifyBatches : Nat → Nat → Event
  | updateProofRow : Nat → Nat → Bool → Event
  | enableVerification : Event
  | sleepRetry : Event
  | resetTime : Event
  | deleteProofs : Nat → Nat → Event
deriving Repr, DecidableEq

/-- Predecessor on uint64: the value of the Go expression
proof.BatchNumber - 1 with wraparound at zero. -/
def pred64 (n : Nat) : Nat :=
  (n + (2 ^ 64 - 1)) % 2 ^ 64

/-- Message carried by the finalProof rendezvous channel (finalProofMsg,
aggregator.go lines 29-33). -/
structure FinalProofMsg where
  proverID : String
  recursiveProof : Proof
  finalProof : FinalProof
deriving Repr, DecidableEq

/-- Environment of one dispatcher iteration: current instant, configured
VerifyProofInterval, results of the two fallible calls, how many times
isSynced answers false before answering true, whether it ever answers true,
and the results of the two cleanup mutations. -/
structure SendEnv where
  now : Nat
  verifyProofInterval : Nat
  getFinalBatch : Except GoErr Batch
  verifyBatchesResult : Except GoErr Unit
  syncFalseCount : Nat
  syncedEventually : Bool
  updUnlock : Except GoErr Unit
  deleteResult : Except GoErr Unit
deriving Repr, DecidableEq

/-- Result of one dispatcher iteration: the dispatcher either continues its
loop or is stuck in the sync wait forever. -/
inductive SendOutcome where
  | continued : SendOutcome
  | diverged : SendOutcome
deriving Repr, DecidableEq

/-- One iteration of sendFinalProof (aggregator.go lines 203-261) consuming
one message: load the final batch row (on failure re-enable the gate and
continue); submit VerifyBatches(batchNumber - 1, batchNumberFinal, inputs)
(on failure restore the proof row to generating false, re-enable the gate
without touching the deadline, keep the row, and continue); on success poll
isSynced sleeping RetryTime between checks, then resetVerifyProofTime, then
delete all proofs covering the verified range (a delete failure is only
logged). -/
def sendFinalProofStep (env : SendEnv) (msg : FinalProofMsg) (g : GateState)
    (s : List Proof) : SendOutcome × GateState × List Proof × List Event :=
  let bn := msg.recursiveProof.batchNumber
  let bnf := msg.recursiveProof.batchNumberFinal
  match env.getFinalBatch with
  | .error _ =>
      (.continued, enableProofVerification g, s, [.getBatch bnf, .enableVerification])
  | .ok _finalBatch =>
    match env.verifyBatchesResult with
    | .error _ =>
        let unlocked := { msg.recursiveProof with generating := false }
        let s1 := match env.updUnlock with
          | .error _ => s
          | .ok _ => updateGeneratedProof unlocked s
        (.continued, enableProofVerification g, s1,
          [.getBatch bnf, .verifyBatches (pred64 bn) bnf,
           .updateProofRow bn bnf false, .enableVerification])
    | .ok _ =>
        if env.syncedEventually then
          let s2 := match env.deleteResult with
            | .error _ => s
            | .ok _ => deleteGeneratedProofs bn bnf s
          (.continued, resetVerifyProofTime env.now env.verifyProofInterval, s2,
            [.getBatch bnf, .verifyBatches (pred64 bn) bnf]
              ++ List.replicate env.syncFalseCount .sleepRetry
              ++ [.resetTime, .deleteProofs bn bnf])
        else
          (.diverged, g, s,
            [.getBatch bnf, .verifyBatches (pred64 bn) bnf])

/-- C5: when the L1 submission fails, the dispatcher restores the recursive
proof row to generating false, re-enables proof verification leaving the
deadline unchanged (so no VerifyProofInterval wait is imposed), performs no
delete, and continues its loop. -/
theorem sendFinalProofStep_submit_failure (env : SendEnv) (msg : FinalProofMsg)
    (g : GateState) (s : List Proof) (b : Batch) (e : GoErr)
    (hb : env.getFinalBatch = .ok b)
    (hv : env.verifyBatchesResult = .error e)
    (hu : env.updUnlock = .ok ()) :
    sendFinalProofStep env msg g s =
      (.continued, { g with verifyingProof := false },
        updateGeneratedProof { msg.recursiveProof with generating := false } s,
        [.getBatch msg.recursiveProof.batchNumberFinal,
         .verifyBatches (pred64 msg.recursiveProof.batchNumber)
           msg.recursiveProof.batchNumberFinal,
         .updateProofRow msg.recursiveProof.batchNumber
           msg.recursiveProof.batchNumberFinal false,
         .enableVerification]) ∧
    (sendFinalProofStep env msg g s).2.1.timeSendFinalProof = g.timeSendFinalProof ∧
    (∀ a b2, Event.deleteProofs a b2 ∉ (sendFinalProofStep env msg g s).2.2.2) := by
  have hmain : sendFinalProofStep env msg g s =
      (.continued, { g with verifyingProof := false },
        updateGeneratedProof { msg.recursiveProof with generating := false } s,
        [.getBatch msg.recursiveProof.batchNumberFinal,
         .verifyBatches (pred64 msg.recursiveProof.batchNumber)
           msg.recursiveProof.batchNumberFinal,
         .updateProofRow msg.recursiveProof.batchNumber
           msg.recursiveProof.batchNumberFinal false,
         .enableVerification]) := by
    simp [sendFinalProofStep, hb, hv, hu, enableProofVerification]
  refine ⟨hmain, ?_, ?_⟩
  · rw [hmain]
  · intro a b2
    rw [hmain]
    simp

/-- Environment fixture for the C5 witness: VerifyBatches fails. -/
def sendEnvC5 : SendEnv :=
  { now := 50, verifyProofInterval := 100
    getFinalBatch := .ok batchW
    verifyBatchesResult := .error .other
    syncFalseCount := 0, syncedEventually := true
    updUnlock := .ok (), deleteResult := .ok () }

/-- Message fixture: final proof for the range 11-12. -/
def msgW : FinalProofMsg :=
  { proverID := "pv"
    recursiveProof :=
      { batchNumber := 11, batchNumberFinal := 12, proofID := some "pid"
        proof := "pf", inputProver := "ip", prover := some "pv", generating := true }
    finalProof := { newStateRoot := "sr", newLocalExitRoot := "ler" } }

/-- C5 (witness): concrete failed submission for range 11-12; the row is
restored in place, the gate re-opens with its deadline untouched and nothing
is deleted. -/
theorem sendFinalProofStep_submit_failure_witness :
    sendFinalProofStep sendEnvC5 msgW (GateState.mk true 40) [msgW.recursiveProof] =
      (.continued, GateState.mk false 40,
        updateGeneratedProof { msgW.recursiveProof with generating := false }
          [msgW.recursiveProof],
        [.getBatch 12, .verifyBatches (pred64 11) 12,
         .updateProofRow 11 12 false, .enableVerification]) ∧
    (sendFinalProofStep sendEnvC5 msgW (GateState.mk true 40)
        [msgW.recursiveProof]).2.1.timeSendFinalProof = 40 ∧
    (∀ a b2, Event.deleteProofs a b2 ∉
      (sendFinalProofStep sendEnvC5 msgW (GateState.mk true 40)
        [msgW.recursiveProof]).2.2.2) :=
  sendFinalProofStep_submit_failure sendEnvC5 msgW (GateState.mk true 40)
    [msgW.recursiveProof] batchW .other rfl rfl rfl

/-- C6: on submission success the dispatcher calls VerifyBatches with first
argument batchNumber - 1 and second argument batchNumberFinal, then waits for
the synchronizer (sleeping between the isSynced checks), then resets the
verify proof time (clearing verifyingProof and moving the deadline to now
plus VerifyProofInterval), and then deletes all proofs covering the range --
in that order. -/
theorem sendFinalProofStep_success (env : SendEnv) (msg : FinalProofMsg)
    (g : GateState) (s : List Proof) (b : Batch)
    (hb : env.getFinalBatch = .ok b)
    (hv : env.verifyBatchesResult = .ok ())
    (hsync : env.syncedEventually = true)
    (hd : env.deleteResult = .ok ())
    (hbn : 1 ≤ msg.recursiveProof.batchNumber)
    (hbn64 : msg.recursiveProof.batchNumber < 2 ^ 64) :
    sendFinalProofStep env msg g s =
      (.continued,
        { verifyingProof := false,
          timeSendFinalProof := env.now + env.verifyProofInterval },
        deleteGeneratedProofs msg.recursiveProof.batchNumber
          msg.recursiveProof.batchNumberFinal s,
        [.getBatch msg.recursiveProof.batchNumberFinal,
         .verifyBatches (msg.recursiveProof.batchNumber - 1)
           msg.recursiveProof.batchNumberFinal]
          ++ List.replicate env.syncFalseCount .sleepRetry
          ++ [.resetTime,
              .deleteProofs msg.recursiveProof.batchNumber
                msg.recursiveProof.batchNumberFinal]) := by
  have hpred : pred64 msg.recursiveProof.batchNumber =
      msg.recursiveProof.batchNumber - 1 := by
    unfold pred64
    rcases Nat.exists_eq_add_of_le hbn with ⟨k, hk⟩
    rw [hk]
    have h2 : 1 + k + (2 ^ 64 - 1) = k + 2 ^ 64 := by omega
    rw [h2, Nat.add_mod_right, Nat.mod_eq_of_lt (by omega)]
    omega
  simp [sendFinalProofStep, hb, hv, hsync, hd, resetVerifyProofTime, hpred]

/-- Environment fixture for the C6 witness: successful submission, two
not-yet-synced polls before the synchronizer catches up. -/
def sendEnvC6 : SendEnv :=
  { now := 50, verifyProofInterval := 100
    getFinalBatch := .ok batchW
    verifyBatchesResult := .ok ()
    syncFalseCount := 2, syncedEventually := true
    updUnlock := .ok (), deleteResult := .ok () }

/-- C6 (witness): concrete successful submission for range 11-12; the trace
is VerifyBatches(10, 12), two sync sleeps, the deadline reset, then the
range delete. -/
theorem sendFinalProofStep_success_witness :
    sendFinalProofStep sendEnvC6 msgW (GateState.mk true 40) [msgW.recursiveProof] =
      (.continued, GateState.mk false 150,
        deleteGeneratedProofs 11 12 [msgW.recursiveProof],
        [.getBatch 12, .verifyBatches 10 12]
          ++ List.replicate 2 .sleepRetry
          ++ [.resetTime, .deleteProofs 11 12]) :=
  sendFinalProofStep_success sendEnvC6 msgW (GateState.mk true 40)
    [msgW.recursiveProof] batchW rfl rfl rfl rfl (by decide) (by norm_num [msgW])

/-- Environment of one tryAggregateProofs call: the prover id and the result
of each fallible external call on this code path, in program order,
including the nested tryBuildFinalProof environment and the calls of the
deferred unlockProofsToAggregate. -/
structure AggEnv where
  proverID : String
  getProofsToAggregate : Except GoErr (Proof × Proof)
  beginLockTx : Except GoErr Unit
  updLock1 : Except GoErr Unit
  updLock2 : Except GoErr Unit
  commitLockTx : Except GoErr Unit
  marshalInput : Except GoErr String
  aggregatedProofID : Except GoErr String
  waitRecursiveProof : Except GoErr String
  beginStoreTx : Except GoErr Unit
  deleteOld : Except GoErr Unit
  addNew : Except GoErr Unit
  commitStoreTx : Except GoErr Unit
  tbfp : TbfpEnv
  updFinalProofRow : Except GoErr Unit
  unlockBeginTx : Except GoErr Unit
  unlockUpd1 : Except GoErr Unit
  unlockUpd2 : Except GoErr Unit
  unlockCommit : Except GoErr Unit
deriving Repr, DecidableEq

/-- getAndLockProofsToAggregate (aggregator.go lines 474-508): under the
StateDBMutex, select two proofs to aggregate and stamp both generating in a
single transaction; any failure rolls the transaction back, leaving the
store unchanged, and propagates the error. -/
def getAndLockProofsToAggregate (env : AggEnv) (s : List Proof) :
    Except GoErr (Proof × Proof × List Proof) :=
  match env.getProofsToAggregate with
  | .error e => .error e
  | .ok (proof1, proof2) =>
  match env.beginLockTx with
  | .error e => .error e
  | .ok _ =>
  let locked1 := { proof1 with generating := true }
  match env.updLock1 with
  | .error e => .error e
  | .ok _ =>
  let locked2 := { proof2 with generating := true }
  match env.updLock2 with
  | .error e => .error e
  | .ok _ =>
  match env.commitLockTx with
  | .error e => .error e
  | .ok _ => .ok (locked1, locked2, updateGeneratedProof locked2 (updateGeneratedProof locked1 s))

/-- unlockProofsToAggregate (aggregator.go lines 446-472): restore both
proofs to generating false in a single transaction; on any failure the
transaction is rolled back and the store is unchanged. -/
def unlockProofsToAggregate (env : AggEnv) (proof1 proof2 : Proof)
    (s : List Proof) : Except GoErr Unit × List Proof :=
  match env.unlockBeginTx with
  | .error e => (.error e, s)
  | .ok _ =>
  let un1 := { proof1 with generating := false }
  match env.unlockUpd1 with
  | .error e => (.error e, s)
  | .ok _ =>
  let un2 := { proof2 with generating := false }
  match env.unlockUpd2 with
  | .error e => (.error e, s)
  | .ok _ =>
  match env.unlockCommit with
  | .error e => (.error e, s)
  | .ok _ => (.ok (), updateGeneratedProof un2 (updateGeneratedProof un1 s))

/-- Error return of tryAggregateProofs after the two input proofs were
locked: the tracked err variable is non-nil, so the deferred cleanup calls
unlockProofsToAggregate on them (its own failure is only logged). -/
def aggFail (env : AggEnv) (g : GateState) (s : List Proof)
    (proof1 proof2 : Proof) (e : GoErr) : OpResult × GateState × List Proof :=
  (.errored e, g, (unlockProofsToAggregate env proof1 proof2 s).2)

/-- The new aggregated proof row as assembled by tryAggregateProofs (lines
548-554 and 561, 572): spans from proof1.BatchNumber to
proof2.BatchNumberFinal, carries the serialized prover input, the
aggregation proof id and the recursive payload, generating true. -/
def aggProofRow (env : AggEnv) (proof1 proof2 : Proof) (b aggrID recProof : String) :
    Proof :=
  { batchNumber := proof1.batchNumber
    batchNumberFinal := proof2.batchNumberFinal
    proofID := some aggrID
    proof := recProof
    inputProver := b
    prover := some env.proverID
    generating := true }

/-- Tail of tryAggregateProofs from the nested tryBuildFinalProof call on
(lines 599-617): attempt the final proof on the new aggregated row; if it
was not consumed set it back to generating false; on any error the deferred
cleanup unlocks the two input rows (and only them). -/
def aggTail (env : AggEnv) (g : GateState) (s : List Proof)
    (proof1 proof2 proofNew : Proof) : OpResult × GateState × List Proof :=
  match tryBuildFinalProof env.tbfp g s (some proofNew) with
  | (.ok true, g2, s3) => (.ok true, g2, s3)
  | (.ok false, g2, s3) =>
      match env.updFinalProofRow with
      | .error e => (.errored e, g2, (unlockProofsToAggregate env proof1 proof2 s3).2)
      | .ok _ => (.ok true, g2, updateGeneratedProof { proofNew with generating := false } s3)
  | (.errored e, g2, s3) => (.errored e, g2, (unlockProofsToAggregate env proof1 proof2 s3).2)
  | (.panicked, g2, s3) => (.panicked, g2, s3)
  | (.diverged, g2, s3) => (.diverged, g2, s3)

/-- Body of tryAggregateProofs after the two inputs are locked (lines
523-617): marshal the prover input, run the aggregation on the prover, then
in one transaction delete the two input rows and insert the new aggregated
row, commit, and finally attempt tryBuildFinalProof on the new row, setting
it back to generating false if the final proof was not built.  Every error
return sets the tracked err variable, so the deferred unlock of the two
input rows runs on each of them; nothing ever unlocks the new row. -/
def aggBody (env : AggEnv) (g : GateState) (s : List Proof)
    (proof1 proof2 : Proof) : OpResult × GateState × List Proof :=
  match env.marshalInput with
  | .error e => aggFail env g s proof1 proof2 e
  | .ok b =>
  match env.aggregatedProofID with
  | .error e => aggFail env g s proof1 proof2 e
  | .ok aggrID =>
  match env.waitRecursiveProof with
  | .error e => aggFail env g s proof1 proof2 e
  | .ok recProof =>
  let proofNew := aggProofRow env proof1 proof2 b aggrID recProof
  match env.beginStoreTx with
  | .error e => aggFail env g s proof1 proof2 e
  | .ok _ =>
  match env.deleteOld with
  | .error e => aggFail env g s proof1 proof2 e
  | .ok _ =>
  match env.addNew with
  | .error e => aggFail env g s proof1 proof2 e
  | .ok _ =>
  match env.commitStoreTx with
  | .error e => aggFail env g s proof1 proof2 e
  | .ok _ =>
  aggTail env g
    (addGeneratedProof proofNew
      (deleteGeneratedProofs proof1.batchNumber proof2.batchNumberFinal s))
    proof1 proof2 proofNew

/-- tryAggregateProofs (aggregator.go lines 510-618): lock two adjacent
proofs (an ErrNotFound is swallowed as: nothing to aggregate), then run the
aggregation body with its deferred unlock. -/
def tryAggregateProofs (env : AggEnv) (g : GateState) (s : List Proof) :
    OpResult × GateState × List Proof :=
  match getAndLockProofsToAggregate env s with
  | .error .notFound => (.ok false, g, s)
  | .error e => (.errored e, g, s)
  | .ok (proof1, proof2, s1) => aggBody env g s1 proof1 proof2

/-- Public inputs of the prover input bundle (pb.PublicInputs as filled by
buildInputProver). -/
structure PublicInputs where
  oldStateRoot : String
  oldAccInputHash : String
  oldBatchNum : Nat
  chainID : Nat
  batchL2Data : List Nat
  globalExitRoot : String
  ethTimestamp : Nat
  sequencerAddr : String
  aggregatorAddr : String
deriving Repr, DecidableEq

/-- The prover input bundle (pb.InputProver); db and contractsBytecode are
empty string maps, modelled as the one-point unit they are. -/
structure InputProver where
  publicInputs : PublicInputs
deriving Repr, DecidableEq

/-- Result of buildInputProver: the bundle, an error, or the nil dereference
of the previous batch when GetBatchByNumber answers
ErrStateNotSynchronized (the code tolerates that error and then reads
previousBatch.StateRoot from the nil pointer, aggregator.go line 815). -/
inductive InputProverResult where
  | ok : InputProver → InputProverResult
  | errored : GoErr → InputProverResult
  | panicked : InputProverResult
deriving Repr, DecidableEq

/-- Environment of one tryGenerateBatchProof call: the prover id, the chain
id, and the result of each fallible external call on this code path, in
program order, including the nested tryBuildFinalProof environment. -/
structure GenEnv where
  proverID : String
  chainID : Nat
  getLastVerifiedBatch : Except GoErr Batch
  getVirtualBatchToProve : Except GoErr Batch
  isProfitable : Except GoErr Bool
  addProof : Except GoErr Unit
  getPrevBatch : Except GoErr Batch
  getPublicAddress : Except GoErr String
  marshalInput : Except GoErr String
  batchProofID : Except GoErr String
  waitRecursiveProof : Except GoErr String
  tbfp : TbfpEnv
  updFinalProofRow : Except GoErr Unit
  deleteCleanup : Except GoErr Unit
deriving Repr, DecidableEq

/-- buildInputProver (aggregator.go lines 802-830): read the previous batch
and the aggregator public address and assemble the bundle. -/
def buildInputProver (env : GenEnv) (batchToVerify : Batch) : InputProverResult :=
  match env.getPrevBatch with
  | .error .stateNotSynchronized => .panicked
  | .error e => .errored e
  | .ok previousBatch =>
  match env.getPublicAddress with
  | .error e => .errored e
  | .ok pubAddr =>
    .ok { publicInputs :=
      { oldStateRoot := previousBatch.stateRoot
        oldAccInputHash := previousBatch.accInputHash
        oldBatchNum := previousBatch.batchNumber
        chainID := env.chainID
        batchL2Data := batchToVerify.batchL2Data
        globalExitRoot := batchToVerify.globalExitRoot
        ethTimestamp := batchToVerify.timestamp
        sequencerAddr := batchToVerify.coinbase
        aggregatorAddr := pubAddr } }

/-- getAndLockBatchToProve (aggregator.go lines 620-667): under the
StateDBMutex, read the last verified batch, select the next virtual batch,
consult the profitability checker, and on a profitable batch insert a new
generating proof row covering it.  When the checker answers false the source
executes: return nil, nil, err -- and err is nil at that point, so the
function reports success carrying two nil pointers. -/
def getAndLockBatchToProve (env : GenEnv) (s : List Proof) :
    (Option Batch × Option Proof × Option GoErr) × List Proof :=
  match env.getLastVerifiedBatch with
  | .error e => ((none, none, some e), s)
  | .ok _lastVerifiedBatch =>
  match env.getVirtualBatchToProve with
  | .error e => ((none, none, some e), s)
  | .ok batchToVerify =>
  match env.isProfitable with
  | .error e => ((none, none, some e), s)
  | .ok isProfitable =>
  if isProfitable = false then
    ((none, none, none), s)
  else
    let proof : Proof :=
      { batchNumber := batchToVerify.batchNumber
        batchNumberFinal := batchToVerify.batchNumber
        proofID := none, proof := "", inputProver := ""
        prover := some env.proverID, generating := true }
    match env.addProof with
    | .error e => ((none, none, some e), s)
    | .ok _ => ((some batchToVerify, some proof, none), addGeneratedProof proof s)

/-- Store effect of the deferred cleanup in tryGenerateBatchProof (lines
684-692): delete the proof rows covering the locked batch; a failing delete
is only logged. -/
def genCleanup (env : GenEnv) (s : List Proof) (proof : Proof) : List Proof :=
  match env.deleteCleanup with
  | .error _ => s
  | .ok _ => deleteGeneratedProofs proof.batchNumber proof.batchNumberFinal s

/-- Error return of tryGenerateBatchProof after the proof row was inserted:
the tracked err variable is non-nil, so the deferred cleanup deletes the
row. -/
def genFail (env : GenEnv) (g : GateState) (s : List Proof) (proof : Proof)
    (e : GoErr) : OpResult × GateState × List Proof :=
  (.errored e, g, genCleanup env s proof)

/-- Tail of tryGenerateBatchProof from the nested tryBuildFinalProof call on
(lines 730-748): attempt the final proof on the generated row; if it was not
consumed set it back to generating false; on any error the deferred cleanup
deletes the rows covering the locked batch. -/
def genTail (env : GenEnv) (g : GateState) (s : List Proof) (proofP : Proof) :
    OpResult × GateState × List Proof :=
  match tryBuildFinalProof env.tbfp g s (some proofP) with
  | (.ok true, g2, s2) => (.ok true, g2, s2)
  | (.ok false, g2, s2) =>
      match env.updFinalProofRow with
      | .error e => (.errored e, g2, genCleanup env s2 proofP)
      | .ok _ => (.ok true, g2, updateGeneratedProof { proofP with generating := false } s2)
  | (.errored e, g2, s2) => (.errored e, g2, genCleanup env s2 proofP)
  | (.panicked, g2, s2) => (.panicked, g2, s2)
  | (.diverged, g2, s2) => (.diverged, g2, s2)

/-- Body of tryGenerateBatchProof after the batch is locked (lines 682-748):
build and marshal the prover input, run the batch proof on the prover,
attach the payload, and attempt tryBuildFinalProof on the row, setting it
back to generating false if the final proof was not built.  Every error
return sets the tracked err variable, so the deferred delete runs.  A panic
in buildInputProver propagates while the tracked err variable is still nil,
so the deferred delete does not run. -/
def genBody (env : GenEnv) (g : GateState) (s : List Proof)
    (batchToProve : Batch) (proof : Proof) : OpResult × GateState × List Proof :=
  match buildInputProver env batchToProve with
  | .panicked => (.panicked, g, s)
  | .errored e => genFail env g s proof e
  | .ok _inputProver =>
  match env.marshalInput with
  | .error e => genFail env g s proof e
  | .ok b =>
  let proofI := { proof with inputProver := b }
  match env.batchProofID with
  | .error e => genFail env g s proofI e
  | .ok genProofID =>
  let proofID := { proofI with proofID := some genProofID }
  match env.waitRecursiveProof with
  | .error e => genFail env g s proofID e
  | .ok resGetProof =>
  genTail env g s { proofID with proof := resGetProof }

/-- tryGenerateBatchProof (aggregator.go lines 669-749): lock the next
virtual batch (an ErrNotFound is swallowed as: nothing to prove; any other
non-nil error propagates), then log the batch number of the locked batch --
which dereferences the nil batch pointer when getAndLockBatchToProve
reported the not-profitable case as success with nil data -- and run the
proof generation body. -/
def tryGenerateBatchProof (env : GenEnv) (g : GateState) (s : List Proof) :
    OpResult × GateState × List Proof :=
  match getAndLockBatchToProve env s with
  | ((batchToProve?, proof?, err0), s1) =>
    match err0 with
    | some .notFound => (.ok false, g, s1)
    | some e => (.errored e, g, s1)
    | none =>
      match batchToProve?, proof? with
      | some batchToProve, some proof => genBody env g s1 batchToProve proof
      | _, _ => (.panicked, g, s1)

/-- Environment fixture for C2: the store reads succeed and the
profitability checker answers false without error. -/
def genEnvC2 : GenEnv :=
  { proverID := "pv", chainID := 1
    getLastVerifiedBatch := .ok batchW
    getVirtualBatchToProve := .ok batchW
    isProfitable := .ok false
    addProof := .ok ()
    getPrevBatch := .ok batchW
    getPublicAddress := .ok "addr"
    marshalInput := .ok "mi"
    batchProofID := .ok "bp"
    waitRecursiveProof := .ok "rp"
    tbfp := tbfpEnvC9
    updFinalProofRow := .ok ()
    deleteCleanup := .ok () }

/-- C2: when the profitability policy rejects the selected virtual batch,
getAndLockBatchToProve reports success with nil batch and nil proof (the
returned err is nil at that point in the source), so tryGenerateBatchProof
passes both nil checks, inserts no proof row and holds no lock, but then
dereferences the nil batch pointer in its first log statement and panics
instead of returning (false, nil). -/
theorem tryGenerateBatchProof_unprofitable_panics :
    (getAndLockBatchToProve genEnvC2 []).1 = (none, none, none) ∧
    (getAndLockBatchToProve genEnvC2 []).2 = [] ∧
    tryGenerateBatchProof genEnvC2 (GateState.mk false 3) [] =
      (.panicked, GateState.mk false 3, []) :=
  ⟨rfl, rfl, rfl⟩

/-- Membership in an updated store: every row of the result is the new row
or an untouched row whose range key differs from the new row's. -/
theorem mem_updateGeneratedProof (p : Proof) (s : List Proof) (q : Proof)
    (hq : q ∈ updateGeneratedProof p s) :
    q = p ∨ (q ∈ s ∧
      ¬(q.batchNumber = p.batchNumber ∧ q.batchNumberFinal = p.batchNumberFinal)) := by
  unfold updateGeneratedProof at hq
  rcases List.mem_map.mp hq with ⟨r, hr, hrq⟩
  by_cases h : r.batchNumber = p.batchNumber ∧ r.batchNumberFinal = p.batchNumberFinal
  · left
    rw [← hrq, if_pos h]
  · right
    rw [← hrq, if_neg h]
    exact ⟨hr, h⟩

/-- Membership after a range delete: rows of the result are rows of the
input outside the deleted range. -/
theorem mem_deleteGeneratedProofs (a b : Nat) (s : List Proof) (q : Proof)
    (hq : q ∈ deleteGeneratedProofs a b s) :
    q ∈ s ∧ ¬(a ≤ q.batchNumber ∧ q.batchNumberFinal ≤ b) := by
  unfold deleteGeneratedProofs at hq
  have h := List.mem_filter.mp hq
  refine ⟨h.1, ?_⟩
  have h2 := h.2
  simp at h2
  omega

/-- Membership after an insert: rows of the result are old rows or the new
row. -/
theorem mem_addGeneratedProof (p : Proof) (s : List Proof) (q : Proof)
    (hq : q ∈ addGeneratedProof p s) : q ∈ s ∨ q = p := by
  unfold addGeneratedProof at hq
  rcases List.mem_append.mp hq with h | h
  · exact Or.inl h
  · exact Or.inr (by simpa using h)

/-- No proof row is generating in s1 unless a row with the same range key
was already generating in s0: the release property of the pipeline error
paths. -/
def noNewGenerating (s0 s1 : List Proof) : Prop :=
  ∀ q ∈ s1, q.generating = true →
    ∃ q0 ∈ s0, q0.generating = true ∧ q0.batchNumber = q.batchNumber ∧
      q0.batchNumberFinal = q.batchNumberFinal

theorem noNewGenerating_refl (s : List Proof) : noNewGenerating s s :=
  fun q hq hgen => ⟨q, hq, hgen, rfl, rfl⟩

/-- A tryBuildFinalProof call on a provided proof never mutates the store:
only the nil-argument branch stamps and unstamps a row. -/
theorem tbfp_some_store_unchanged (env : TbfpEnv) (g : GateState)
    (s : List Proof) (p : Proof) :
    (tryBuildFinalProof env g s (some p)).2.2 = s := by
  simp only [tryBuildFinalProof]
  split
  · rfl
  · split
    · rfl
    · split
      · rfl
      · split
        · rfl
        · rfl
        · simp only [tbfpFinish, tbfpCleanup]
          split
          · simp
          · rfl
          · split <;> rfl

/-- Locking one row and then restoring a row with the same range key to
generating false leaves no new generating row. -/
theorem noNewGenerating_unlock_single (a b : Proof) (s : List Proof)
    (hbn : b.batchNumber = a.batchNumber) (hbf : b.batchNumberFinal = a.batchNumberFinal)
    (hb : b.generating = false) :
    noNewGenerating s (updateGeneratedProof b (updateGeneratedProof a s)) := by
  intro q hq hgen
  rcases mem_updateGeneratedProof _ _ _ hq with h | ⟨hq1, hk⟩
  · rw [h] at hgen
    rw [hb] at hgen
    exact Bool.noConfusion hgen
  · rcases mem_updateGeneratedProof _ _ _ hq1 with h | ⟨hq2, _⟩
    · exact absurd ⟨by rw [h]; exact hbn.symm, by rw [h]; exact hbf.symm⟩ hk
    · exact ⟨q, hq2, hgen, rfl, rfl⟩

/-- Locking two rows and then restoring rows with the same range keys to
generating false leaves no new generating row. -/
theorem noNewGenerating_unlock_pair (a1 a2 b1 b2 : Proof) (s : List Proof)
    (h1bn : b1.batchNumber = a1.batchNumber)
    (h1bf : b1.batchNumberFinal = a1.batchNumberFinal)
    (h2bn : b2.batchNumber = a2.batchNumber)
    (h2bf : b2.batchNumberFinal = a2.batchNumberFinal)
    (hb1 : b1.generating = false) (hb2 : b2.generating = false) :
    noNewGenerating s
      (updateGeneratedProof b2 (updateGeneratedProof b1
        (updateGeneratedProof a2 (updateGeneratedProof a1 s)))) := by
  intro q hq hgen
  rcases mem_updateGeneratedProof _ _ _ hq with h | ⟨hq1, hk2⟩
  · rw [h, hb2] at hgen
    exact Bool.noConfusion hgen
  · rcases mem_updateGeneratedProof _ _ _ hq1 with h | ⟨hq2, hk1⟩
    · rw [h, hb1] at hgen
      exact Bool.noConfusion hgen
    · rcases mem_updateGeneratedProof _ _ _ hq2 with h | ⟨hq3, _⟩
      · exact absurd ⟨by rw [h]; exact h2bn.symm, by rw [h]; exact h2bf.symm⟩ hk2
      · rcases mem_updateGeneratedProof _ _ _ hq3 with h | ⟨hq4, _⟩
        · exact absurd ⟨by rw [h]; exact h1bn.symm, by rw [h]; exact h1bf.symm⟩ hk1
        · exact ⟨q, hq4, hgen, rfl, rfl⟩

/-- After locking two rows, deleting a range, inserting a fresh row and then
restoring rows with the locked keys to generating false, every generating
row is an original generating row or the fresh row. -/
theorem noNewGenerating_unlock_after_commit (a1 a2 b1 b2 pN : Proof)
    (x y : Nat) (s : List Proof)
    (h1bn : b1.batchNumber = a1.batchNumber)
    (h1bf : b1.batchNumberFinal = a1.batchNumberFinal)
    (h2bn : b2.batchNumber = a2.batchNumber)
    (h2bf : b2.batchNumberFinal = a2.batchNumberFinal)
    (hb1 : b1.generating = false) (hb2 : b2.generating = false) :
    ∀ q ∈ updateGeneratedProof b2 (updateGeneratedProof b1
        (addGeneratedProof pN (deleteGeneratedProofs x y
          (updateGeneratedProof a2 (updateGeneratedProof a1 s))))),
      q.generating = true →
      (∃ q0 ∈ s, q0.generating = true ∧ q0.batchNumber = q.batchNumber ∧
        q0.batchNumberFinal = q.batchNumberFinal) ∨ q = pN := by
  intro q hq hgen
  rcases mem_updateGeneratedProof _ _ _ hq with h | ⟨hq1, hk2⟩
  · rw [h, hb2] at hgen
    exact Bool.noConfusion hgen
  · rcases mem_updateGeneratedProof _ _ _ hq1 with h | ⟨hq2, hk1⟩
    · rw [h, hb1] at hgen
      exact Bool.noConfusion hgen
    · rcases mem_addGeneratedProof _ _ _ hq2 with hq3 | h
      · have hdel := mem_deleteGeneratedProofs _ _ _ _ hq3
        rcases mem_updateGeneratedProof _ _ _ hdel.1 with h | ⟨hq4, _⟩
        · exact absurd ⟨by rw [h]; exact h2bn.symm, by rw [h]; exact h2bf.symm⟩ hk2
        · rcases mem_updateGeneratedProof _ _ _ hq4 with h | ⟨hq5, _⟩
          · exact absurd ⟨by rw [h]; exact h1bn.symm, by rw [h]; exact h1bf.symm⟩ hk1
          · exact Or.inl ⟨q, hq5, hgen, rfl, rfl⟩
      · exact Or.inr h

/-- Every error return of tryBuildFinalProof outside the cancellation-during
send path restores the row it locked, provided the cleanup update succeeds:
no new generating row is left. -/
theorem tbfp_error_release (env : TbfpEnv) (g : GateState) (s : List Proof)
    (proofArg : Option Proof) (e : GoErr)
    (hun : env.updUnlockReady = .ok ())
    (hctx : env.ctxDoneAtSend = false)
    (herr : (tryBuildFinalProof env g s proofArg).1 = .errored e) :
    noNewGenerating s (tryBuildFinalProof env g s proofArg).2.2 := by
  cases proofArg with
  | some p =>
      rw [tbfp_some_store_unchanged]
      exact noNewGenerating_refl s
  | none =>
      rcases hcv : canVerifyProof env.now g with ⟨b, g1⟩
      cases b with
      | false =>
          simp only [tryBuildFinalProof, hcv]
          exact noNewGenerating_refl s
      | true =>
          by_cases hsync : env.syncedEventually = false
          · simp only [tryBuildFinalProof, hcv, if_pos hsync]
            exact noNewGenerating_refl s
          · rcases hlv : lastVerifiedNum env.getLastVerifiedBatch with elv | lv
            · simp only [tryBuildFinalProof, hcv, if_neg hsync, hlv]
              exact noNewGenerating_refl s
            · rcases hget : env.getProofReadyToVerify with eg | p0
              · cases eg <;>
                  simp only [tryBuildFinalProof, getAndLockProofReadyToVerify, hcv,
                    if_neg hsync, hlv, hget] <;>
                  exact noNewGenerating_refl s
              · rcases hupd : env.updLockReady with eu | u
                · cases eu <;>
                    simp only [tryBuildFinalProof, getAndLockProofReadyToVerify, hcv,
                      if_neg hsync, hlv, hget, hupd] <;>
                    exact noNewGenerating_refl s
                · simp only [tryBuildFinalProof, getAndLockProofReadyToVerify, hcv,
                    if_neg hsync, hlv, hget, hupd, tbfpFinish, tbfpCleanup] at herr ⊢
                  cases hbfp : buildFinalProof env { p0 with generating := true } with
                  | ok fp pid =>
                      rw [hbfp] at herr
                      rw [hctx] at herr
                      simp at herr
                  | panicked =>
                      rw [hbfp] at herr
                      simp at herr
                  | errored eb =>
                      simp only [hun, if_true]
                      exact noNewGenerating_unlock_single
                        { p0 with generating := true }
                        { p0 with generating := false } s rfl rfl rfl

/-- Inserting a row and then deleting a range covering it leaves no new
generating row. -/
theorem noNewGenerating_del_add (p : Proof) (x y : Nat) (s : List Proof)
    (hx : x ≤ p.batchNumber) (hy : p.batchNumberFinal ≤ y) :
    noNewGenerating s (deleteGeneratedProofs x y (addGeneratedProof p s)) := by
  intro q hq hgen
  have hd := mem_deleteGeneratedProofs _ _ _ _ hq
  rcases mem_addGeneratedProof _ _ _ hd.1 with hs | hrow
  · exact ⟨q, hs, hgen, rfl, rfl⟩
  · exact absurd ⟨by rw [hrow]; exact hx, by rw [hrow]; exact hy⟩ hd.2

/-- Every error return of the tail of tryGenerateBatchProof deletes the
inserted row, provided the cleanup delete succeeds. -/
theorem genTail_error_release (env : GenEnv) (g : GateState) (s : List Proof)
    (row proofP : Proof) (e : GoErr)
    (hk1 : proofP.batchNumber = row.batchNumber)
    (hk2 : proofP.batchNumberFinal = row.batchNumberFinal)
    (hdel : env.deleteCleanup = .ok ())
    (herr : (genTail env g (addGeneratedProof row s) proofP).1 = .errored e) :
    noNewGenerating s (genTail env g (addGeneratedProof row s) proofP).2.2 := by
  have hclean : noNewGenerating s (genCleanup env (addGeneratedProof row s) proofP) := by
    simp only [genCleanup, hdel]
    exact noNewGenerating_del_add row proofP.batchNumber proofP.batchNumberFinal s
      (le_of_eq hk1) (le_of_eq hk2.symm)
  rcases htb : tryBuildFinalProof env.tbfp g (addGeneratedProof row s) (some proofP)
    with ⟨r, g2, s2⟩
  have hs2 : s2 = addGeneratedProof row s := by
    have h0 := tbfp_some_store_unchanged env.tbfp g (addGeneratedProof row s) proofP
    rw [htb] at h0
    exact h0
  subst hs2
  simp only [genTail, htb] at herr ⊢
  cases r with
  | ok bres =>
      cases bres with
      | true => cases herr
      | false =>
          rcases hupd : env.updFinalProofRow with eu | uu
          · simp only [hupd] at herr ⊢
            exact hclean
          · simp only [hupd] at herr
            cases herr
  | errored te => exact hclean
  | panicked => cases herr
  | diverged => cases herr

/-- Every error return of tryGenerateBatchProof releases every row it
inserted (by deleting it), provided the cleanup delete succeeds: no new
generating row is left. -/
theorem generate_error_release (env : GenEnv) (g : GateState) (s : List Proof)
    (e : GoErr) (hdel : env.deleteCleanup = .ok ())
    (herr : (tryGenerateBatchProof env g s).1 = .errored e) :
    noNewGenerating s (tryGenerateBatchProof env g s).2.2 := by
  rcases hlvb : env.getLastVerifiedBatch with el | lvb
  · cases el <;>
      simp only [tryGenerateBatchProof, getAndLockBatchToProve, hlvb] <;>
      exact noNewGenerating_refl s
  · rcases hvb : env.getVirtualBatchToProve with ev | btv
    · cases ev <;>
        simp only [tryGenerateBatchProof, getAndLockBatchToProve, hlvb, hvb] <;>
        exact noNewGenerating_refl s
    · rcases hprof : env.isProfitable with ep | prof
      · cases ep <;>
          simp only [tryGenerateBatchProof, getAndLockBatchToProve, hlvb, hvb, hprof] <;>
          exact noNewGenerating_refl s
      · cases prof with
        | false =>
            simp [tryGenerateBatchProof, getAndLockBatchToProve, hlvb, hvb, hprof]
            exact noNewGenerating_refl s
        | true =>
            rcases hadd : env.addProof with ea | ua
            · cases ea <;>
                simp [tryGenerateBatchProof, getAndLockBatchToProve, hlvb, hvb,
                  hprof, hadd] <;>
                exact noNewGenerating_refl s
            · have hlock : getAndLockBatchToProve env s =
                  ((some btv,
                    some (Proof.mk btv.batchNumber btv.batchNumber none "" ""
                      (some env.proverID) true), none),
                   addGeneratedProof (Proof.mk btv.batchNumber btv.batchNumber none "" ""
                      (some env.proverID) true) s) := by
                simp [getAndLockBatchToProve, hlvb, hvb, hprof, hadd]
              simp only [tryGenerateBatchProof, hlock, genBody] at herr ⊢
              cases hbip : buildInputProver env btv with
              | panicked =>
                  rw [hbip] at herr
                  simp at herr
              | errored eb =>
                  simp only [genFail, genCleanup, hdel]
                  exact fun q hq hgen => noNewGenerating_del_add
                    (Proof.mk btv.batchNumber btv.batchNumber none "" ""
                      (some env.proverID) true)
                    btv.batchNumber btv.batchNumber s (le_refl _) (le_refl _) q hq hgen
              | ok ip =>
                  rw [hbip] at herr
                  rcases hm : env.marshalInput with em | b
                  · simp only [hm, genFail, genCleanup, hdel] at herr ⊢
                    exact fun q hq hgen => noNewGenerating_del_add
                      (Proof.mk btv.batchNumber btv.batchNumber none "" ""
                        (some env.proverID) true)
                      btv.batchNumber btv.batchNumber s (le_refl _) (le_refl _) q hq hgen
                  · rcases hbp : env.batchProofID with eb2 | pid
                    · simp only [hm, hbp, genFail, genCleanup, hdel] at herr ⊢
                      exact fun q hq hgen => noNewGenerating_del_add
                        (Proof.mk btv.batchNumber btv.batchNumber none "" ""
                          (some env.proverID) true)
                        btv.batchNumber btv.batchNumber s (le_refl _) (le_refl _) q hq hgen
                    · rcases hwr : env.waitRecursiveProof with ew | res
                      · simp only [hm, hbp, hwr, genFail, genCleanup, hdel] at herr ⊢
                        exact fun q hq hgen => noNewGenerating_del_add
                          (Proof.mk btv.batchNumber btv.batchNumber none "" ""
                            (some env.proverID) true)
                          btv.batchNumber btv.batchNumber s (le_refl _) (le_refl _) q hq hgen
                      · simp only [hm, hbp, hwr] at herr ⊢
                        exact genTail_error_release env g s
                          (Proof.mk btv.batchNumber btv.batchNumber none "" ""
                            (some env.proverID) true)
                          (Proof.mk btv.batchNumber btv.batchNumber (some pid) res b
                            (some env.proverID) true)
                          e rfl rfl hdel herr

/-- Every error return of the tail of tryAggregateProofs restores only the
two locked input rows, provided the unlock calls succeed: every generating
row of the result is an original generating row or the new aggregated
row. -/
theorem aggTail_error_release (env : AggEnv) (g : GateState) (s : List Proof)
    (l1 l2 pN : Proof) (e : GoErr)
    (hub : env.unlockBeginTx = .ok ()) (hu1 : env.unlockUpd1 = .ok ())
    (hu2 : env.unlockUpd2 = .ok ()) (huc : env.unlockCommit = .ok ())
    (herr : (aggTail env g
      (addGeneratedProof pN (deleteGeneratedProofs l1.batchNumber l2.batchNumberFinal
        (updateGeneratedProof l2 (updateGeneratedProof l1 s)))) l1 l2 pN).1 =
      .errored e) :
    ∀ q ∈ (aggTail env g
      (addGeneratedProof pN (deleteGeneratedProofs l1.batchNumber l2.batchNumberFinal
        (updateGeneratedProof l2 (updateGeneratedProof l1 s)))) l1 l2 pN).2.2,
      q.generating = true →
      (∃ q0 ∈ s, q0.generating = true ∧ q0.batchNumber = q.batchNumber ∧
        q0.batchNumberFinal = q.batchNumberFinal) ∨ q = pN := by
  rcases htb : tryBuildFinalProof env.tbfp g
      (addGeneratedProof pN (deleteGeneratedProofs l1.batchNumber l2.batchNumberFinal
        (updateGeneratedProof l2 (updateGeneratedProof l1 s)))) (some pN)
    with ⟨r, g2, s3⟩
  have hs3 : s3 = addGeneratedProof pN
      (deleteGeneratedProofs l1.batchNumber l2.batchNumberFinal
        (updateGeneratedProof l2 (updateGeneratedProof l1 s))) := by
    have h0 := tbfp_some_store_unchanged env.tbfp g
      (addGeneratedProof pN (deleteGeneratedProofs l1.batchNumber l2.batchNumberFinal
        (updateGeneratedProof l2 (updateGeneratedProof l1 s)))) pN
    rw [htb] at h0
    exact h0
  subst hs3
  simp only [aggTail, htb] at herr ⊢
  cases r with
  | ok bres =>
      cases bres with
      | true => cases herr
      | false =>
          rcases hupd : env.updFinalProofRow with eu | uu
          · simp only [hupd] at herr ⊢
            simp only [unlockProofsToAggregate, hub, hu1, hu2, huc]
            exact noNewGenerating_unlock_after_commit l1 l2
              { l1 with generating := false } { l2 with generating := false } pN
              l1.batchNumber l2.batchNumberFinal s rfl rfl rfl rfl rfl rfl
          · simp only [hupd] at herr
            cases herr
  | errored te =>
      simp only [unlockProofsToAggregate, hub, hu1, hu2, huc]
      exact noNewGenerating_unlock_after_commit l1 l2
        { l1 with generating := false } { l2 with generating := false } pN
        l1.batchNumber l2.batchNumberFinal s rfl rfl rfl rfl rfl rfl
  | panicked => cases herr
  | diverged => cases herr

/-- Every error return of tryAggregateProofs releases the two input rows it
locked, provided the unlock calls succeed; when the error comes after the
aggregation transaction committed, the newly inserted aggregated row (whose
range spans the two inputs) is the only generating row that may remain. -/
theorem aggregate_error_release (env : AggEnv) (g : GateState) (s : List Proof)
    (e : GoErr)
    (hub : env.unlockBeginTx = .ok ()) (hu1 : env.unlockUpd1 = .ok ())
    (hu2 : env.unlockUpd2 = .ok ()) (huc : env.unlockCommit = .ok ())
    (herr : (tryAggregateProofs env g s).1 = .errored e) :
    ∀ q ∈ (tryAggregateProofs env g s).2.2, q.generating = true →
      (∃ q0 ∈ s, q0.generating = true ∧ q0.batchNumber = q.batchNumber ∧
        q0.batchNumberFinal = q.batchNumberFinal) ∨
      (∃ p1 p2, env.getProofsToAggregate = Except.ok (p1, p2) ∧
        q.batchNumber = p1.batchNumber ∧ q.batchNumberFinal = p2.batchNumberFinal) := by
  rcases hsel : env.getProofsToAggregate with es | ⟨p1, p2⟩
  · cases es <;>
      simp only [tryAggregateProofs, getAndLockProofsToAggregate, hsel] <;>
      exact fun q hq hgen => Or.inl ⟨q, hq, hgen, rfl, rfl⟩
  · rcases hbt : env.beginLockTx with eb | ub
    · cases eb <;>
        simp only [tryAggregateProofs, getAndLockProofsToAggregate, hsel, hbt] <;>
        exact fun q hq hgen => Or.inl ⟨q, hq, hgen, rfl, rfl⟩
    · rcases hl1 : env.updLock1 with e1 | u1
      · cases e1 <;>
          simp only [tryAggregateProofs, getAndLockProofsToAggregate, hsel, hbt, hl1] <;>
          exact fun q hq hgen => Or.inl ⟨q, hq, hgen, rfl, rfl⟩
      · rcases hl2 : env.updLock2 with e2 | u2
        · cases e2 <;>
            simp only [tryAggregateProofs, getAndLockProofsToAggregate, hsel, hbt,
              hl1, hl2] <;>
            exact fun q hq hgen => Or.inl ⟨q, hq, hgen, rfl, rfl⟩
        · rcases hct : env.commitLockTx with ec | uc
          · cases ec <;>
              simp only [tryAggregateProofs, getAndLockProofsToAggregate, hsel, hbt,
                hl1, hl2, hct] <;>
              exact fun q hq hgen => Or.inl ⟨q, hq, hgen, rfl, rfl⟩
          · simp only [tryAggregateProofs, getAndLockProofsToAggregate, hsel, hbt,
              hl1, hl2, hct, aggBody] at herr ⊢
            have hcore : noNewGenerating s
                ((unlockProofsToAggregate env { p1 with generating := true }
                  { p2 with generating := true }
                  (updateGeneratedProof { p2 with generating := true }
                    (updateGeneratedProof { p1 with generating := true } s))).2) := by
              simp only [unlockProofsToAggregate, hub, hu1, hu2, huc]
              exact noNewGenerating_unlock_pair { p1 with generating := true }
                { p2 with generating := true }
                { { p1 with generating := true } with generating := false }
                { { p2 with generating := true } with generating := false }
                s rfl rfl rfl rfl rfl rfl
            rcases hm : env.marshalInput with em | b
            · simp only [hm, aggFail] at herr ⊢
              exact fun q hq hgen => Or.inl (hcore q hq hgen)
            · rcases haid : env.aggregatedProofID with ea | aggrID
              · simp only [hm, haid, aggFail] at herr ⊢
                exact fun q hq hgen => Or.inl (hcore q hq hgen)
              · rcases hwr : env.waitRecursiveProof with ew | recProof
                · simp only [hm, haid, hwr, aggFail] at herr ⊢
                  exact fun q hq hgen => Or.inl (hcore q hq hgen)
                · rcases hbst : env.beginStoreTx with ebs | ubs
                  · simp only [hm, haid, hwr, hbst, aggFail] at herr ⊢
                    exact fun q hq hgen => Or.inl (hcore q hq hgen)
                  · rcases hdo : env.deleteOld with edo | udo
                    · simp only [hm, haid, hwr, hbst, hdo, aggFail] at herr ⊢
                      exact fun q hq hgen => Or.inl (hcore q hq hgen)
                    · rcases han : env.addNew with ean | uan
                      · simp only [hm, haid, hwr, hbst, hdo, han, aggFail] at herr ⊢
                        exact fun q hq hgen => Or.inl (hcore q hq hgen)
                      · rcases hcs : env.commitStoreTx with ecs | ucs
                        · simp only [hm, haid, hwr, hbst, hdo, han, hcs, aggFail]
                            at herr ⊢
                          exact fun q hq hgen => Or.inl (hcore q hq hgen)
                        · simp only [hm, haid, hwr, hbst, hdo, han, hcs] at herr ⊢
                          have htail := aggTail_error_release env g s
                            { p1 with generating := true } { p2 with generating := true }
                            (aggProofRow env { p1 with generating := true }
                              { p2 with generating := true } b aggrID recProof)
                            e hub hu1 hu2 huc herr
                          intro q hq hgen
                          rcases htail q hq hgen with h | h
                          · exact Or.inl h
                          · exact Or.inr ⟨p1, p2, rfl, by rw [h]; rfl, by rw [h]; rfl⟩

/-- Input proof fixture covering batch 1, unlocked. -/
def p1C1 : Proof :=
  { batchNumber := 1, batchNumberFinal := 1, proofID := none, proof := "r1"
    inputProver := "", prover := none, generating := false }

/-- Input proof fixture covering batch 2, unlocked. -/
def p2C1 : Proof :=
  { batchNumber := 2, batchNumberFinal := 2, proofID := none, proof := "r2"
    inputProver := "", prover := none, generating := false }

/-- Nested tryBuildFinalProof environment in which the new aggregated proof
is eligible but building the final proof fails at the public address
lookup. -/
def tbfpEnvAgg : TbfpEnv :=
  { now := 9, syncedEventually := true
    getLastVerifiedBatch := .error .notFound
    getProofReadyToVerify := .error .other
    updLockReady := .ok (), updUnlockReady := .ok ()
    checkProofContainsCompleteSequences := .ok true
    getPublicAddress := .error .other
    finalProofID := .ok "fid"
    waitFinalProof := .ok none
    getFinalBatch := .ok batchW
    ctxDoneAtSend := false }

/-- Aggregation environment in which everything up to and including the
aggregation transaction commit succeeds and the nested tryBuildFinalProof
then fails. -/
def aggEnvC1 : AggEnv :=
  { proverID := "pv"
    getProofsToAggregate := .ok (p1C1, p2C1)
    beginLockTx := .ok (), updLock1 := .ok (), updLock2 := .ok ()
    commitLockTx := .ok ()
    marshalInput := .ok "mi"
    aggregatedProofID := .ok "agid"
    waitRecursiveProof := .ok "rp"
    beginStoreTx := .ok (), deleteOld := .ok (), addNew := .ok ()
    commitStoreTx := .ok ()
    tbfp := tbfpEnvAgg
    updFinalProofRow := .ok ()
    unlockBeginTx := .ok (), unlockUpd1 := .ok (), unlockUpd2 := .ok ()
    unlockCommit := .ok () }

/-- C1 (counterexample): a tryAggregateProofs run over a store with the two
unlocked input rows, in which the nested tryBuildFinalProof fails after the
aggregation transaction committed, returns an error yet leaves the newly
inserted aggregated row with generating true -- although no row was
generating before the failed operation.  The deferred cleanup unlocks only
the two consumed input rows, never the new row. -/
theorem aggregate_error_leaks_generating_row :
    (tryAggregateProofs aggEnvC1 (GateState.mk false 3) [p1C1, p2C1]).1 =
      OpResult.errored GoErr.other ∧
    (∀ q ∈ [p1C1, p2C1], q.generating = false) ∧
    ∃ q ∈ (tryAggregateProofs aggEnvC1 (GateState.mk false 3) [p1C1, p2C1]).2.2,
      q.generating = true := by
  decide

/-- C1 (amended): on every error return of the three pipeline operations,
provided the deferred cleanup store calls succeed, every proof row whose
generating flag the operation set to true is released before the operation
returns, with two exceptions forced by the code: in tryAggregateProofs an
error after the aggregation transaction commit leaves (at most) the newly
inserted aggregated row generating; and in tryBuildFinalProof the
context-cancellation return during the channel send (excluded here) releases
nothing.  Formally: a failed tryGenerateBatchProof leaves no new generating
row; a failed tryAggregateProofs leaves no new generating row other than
possibly the aggregated row spanning the two selected inputs; a failed
tryBuildFinalProof not returning through the cancellation-during-send path
leaves no new generating row. -/
theorem pipeline_error_paths_release_locks :
    (∀ (env : GenEnv) (g : GateState) (s : List Proof) (e : GoErr),
      env.deleteCleanup = Except.ok () →
      (tryGenerateBatchProof env g s).1 = OpResult.errored e →
      noNewGenerating s (tryGenerateBatchProof env g s).2.2) ∧
    (∀ (env : AggEnv) (g : GateState) (s : List Proof) (e : GoErr),
      env.unlockBeginTx = Except.ok () → env.unlockUpd1 = Except.ok () →
      env.unlockUpd2 = Except.ok () → env.unlockCommit = Except.ok () →
      (tryAggregateProofs env g s).1 = OpResult.errored e →
      ∀ q ∈ (tryAggregateProofs env g s).2.2, q.generating = true →
        (∃ q0 ∈ s, q0.generating = true ∧ q0.batchNumber = q.batchNumber ∧
          q0.batchNumberFinal = q.batchNumberFinal) ∨
        (∃ p1 p2, env.getProofsToAggregate = Except.ok (p1, p2) ∧
          q.batchNumber = p1.batchNumber ∧
          q.batchNumberFinal = p2.batchNumberFinal)) ∧
    (∀ (env : TbfpEnv) (g : GateState) (s : List Proof) (proofArg : Option Proof)
        (e : GoErr),
      env.updUnlockReady = Except.ok () → env.ctxDoneAtSend = false →
      (tryBuildFinalProof env g s proofArg).1 = OpResult.errored e →
      noNewGenerating s (tryBuildFinalProof env g s proofArg).2.2) :=
  ⟨generate_error_release, aggregate_error_release, tbfp_error_release⟩

/-- Generation environment failing at the input marshalling step, after the
proof row was inserted. -/
def genEnvW : GenEnv :=
  { genEnvC2 with isProfitable := .ok true, marshalInput := .error .other }

/-- Aggregation environment failing at the recursive proof wait, before the
aggregation transaction. -/
def aggEnvW : AggEnv :=
  { aggEnvC1 with waitRecursiveProof := .error .other }

/-- Final-proof environment failing at the last verified batch lookup. -/
def tbfpEnvW1 : TbfpEnv :=
  { tbfpEnvC9 with getLastVerifiedBatch := .error .other }

/-- C1 (witness): the amended release property applied to one concrete
failing run of each of the three operations. -/
theorem pipeline_error_paths_release_locks_witness :
    noNewGenerating []
      (tryGenerateBatchProof genEnvW (GateState.mk false 3) []).2.2 ∧
    (∀ q ∈ (tryAggregateProofs aggEnvW (GateState.mk false 3) [p1C1, p2C1]).2.2,
      q.generating = true →
      (∃ q0 ∈ [p1C1, p2C1], q0.generating = true ∧ q0.batchNumber = q.batchNumber ∧
        q0.batchNumberFinal = q.batchNumberFinal) ∨
      (∃ p1 p2, aggEnvW.getProofsToAggregate = Except.ok (p1, p2) ∧
        q.batchNumber = p1.batchNumber ∧
        q.batchNumberFinal = p2.batchNumberFinal)) ∧
    noNewGenerating [proofW]
      (tryBuildFinalProof tbfpEnvW1 (GateState.mk false 3) [proofW] none).2.2 :=
  ⟨pipeline_error_paths_release_locks.1 genEnvW (GateState.mk false 3) []
      GoErr.other rfl rfl,
   pipeline_error_paths_release_locks.2.1 aggEnvW (GateState.mk false 3)
      [p1C1, p2C1] GoErr.other rfl rfl rfl rfl rfl,
   pipeline_error_paths_release_locks.2.2 tbfpEnvW1 (GateState.mk false 3)
      [proofW] none GoErr.other rfl rfl rfl⟩

end ZkAgg

namespace EthTxMan

/-- monitoredTx (monitoredtx.go lines 34-72): the information used to build a
transaction plus monitoring data.  Addresses and hashes are strings; the Go
pointer fields value and gasPrice (big.Int pointers) and to (an Address
pointer) are options. -/
structure MonitoredTx where
  id : String
  fromAddr : String
  toAddr : Option String
  nonce : Nat
  value : Option Int
  data : List Nat
  gas : Nat
  gasPrice : Option Int
  status : String
  history : List String
  createdAt : Nat
  updatedAt : Nat
deriving Repr, DecidableEq

/-- A go-ethereum legacy transaction as populated by types.NewTx on a
types.LegacyTx literal; fields absent from the literal keep their zero
values, in particular To stays nil (none), which makes the transaction a
contract creation. -/
structure LegacyTx where
  nonce : Nat
  gasPrice : Option Int
  gas : Nat
  toAddr : Option String
  value : Option Int
  data : List Nat
deriving Repr, DecidableEq

/-- Tx (monitoredtx.go lines 75-85): build a legacy transaction from the
monitoredTx fields Nonce, Value, Data, Gas and GasPrice; the To field of the
literal is not set (toAddr in this embedding). -/
def MonitoredTx.Tx (mTx : MonitoredTx) : LegacyTx :=
  { nonce := mTx.nonce
    value := mTx.value
    data := mTx.data
    gas := mTx.gas
    gasPrice := mTx.gasPrice
    toAddr := none }

/-- C10: for every monitoredTx, Tx() builds a legacy transaction whose nonce,
value, data, gas and gas price equal the corresponding monitoredTx fields,
and whose recipient is always none (a contract-creation transaction)
regardless of the monitoredTx to field. -/
theorem monitoredTx_Tx_spec (mTx : MonitoredTx) :
    (mTx.Tx).nonce = mTx.nonce ∧
    (mTx.Tx).value = mTx.value ∧
    (mTx.Tx).data = mTx.data ∧
    (mTx.Tx).gas = mTx.gas ∧
    (mTx.Tx).gasPrice = mTx.gasPrice ∧
    (mTx.Tx).toAddr = none ∧
    (∀ t : Option String, ({ mTx with toAddr := t } : MonitoredTx).Tx = mTx.Tx) :=
  ⟨rfl, rfl, rfl, rfl, rfl, rfl, fun _ => rfl⟩

end EthTxMan
